import Mathlib

/-!
Shallow embedding of the saltant-py client library (resource managers,
task-instance polling protocol, and model construction), together with
theorems settling the specification claims about it.

Python dictionaries are embedded as association lists with unique keys in
insertion order; Python exceptions as an `Except PyError` result; the HTTP
session as a function from request URLs to responses; the unbounded polling
loop as a fuel-indexed recursion.
-/

/-! ### Constants (saltant/constants.py) -/

def DEFAULT_TASK_INSTANCE_WAIT_REFRESH_PERIOD : Nat := 5

def HTTP_200_OK : Nat := 200

def HTTP_201_CREATED : Nat := 201

def HTTP_202_ACCEPTED : Nat := 202

def CREATED : String := "created"

def PUBLISHED : String := "published"

def RUNNING : String := "running"

def SUCCESSFUL : String := "successful"

def FAILED : String := "failed"

def TERMINATED : String := "terminated"

def TASK_INSTANCE_FINISH_STATUSES : List String :=
  [SUCCESSFUL, FAILED, TERMINATED]

/-! ### Python runtime errors raised by the embedded code -/

/-- The Python exceptions that the embedded code can raise: `TypeError`
(bad call arity), `ValueError`, `IndexError` (from `[0]` on an empty list),
and the library's own `BadHttpRequestError` (saltant/exceptions.py). -/
inductive PyError : Type
  | typeError (msg : String)
  | valueError (msg : String)
  | indexError
  | badHttpRequestError (msg : String)
deriving DecidableEq

/-- An HTTP response as seen by the managers: the raw body `text`, the
`status_code`, and the parsed JSON body (typed per call site). -/
structure HttpResponse (α : Type) where
  text : String
  status_code : Nat
  json : α

/-! ### Python dict embedding: association lists, insertion order kept -/

/-- A Python dict with values of type `V`: an association list with unique
keys, in insertion order. -/
abbrev PyDict (V : Type) := List (String × V)

/-- Python `k in d`. -/
def dictContains {V : Type} (d : PyDict V) (k : String) : Bool :=
  d.any (fun p => p.1 == k)

/-- Python `d[k]` lookup (first occurrence; keys are unique). -/
def dictLookup {V : Type} (d : PyDict V) (k : String) : Option V :=
  (d.find? (fun p => p.1 == k)).map (fun p => p.2)

/-- Python `d[k] = v`: update in place when the key exists, append otherwise. -/
def dictSet {V : Type} (d : PyDict V) (k : String) (v : V) : PyDict V :=
  if dictContains d k then d.map (fun p => if p.1 == k then (k, v) else p)
  else d ++ [(k, v)]

/-- Python `d.update(e)`: set every key of `e` into `d`, in `e`'s order. -/
def dictUpdate {V : Type} (d e : PyDict V) : PyDict V :=
  e.foldl (fun acc p => dictSet acc p.1 p.2) d

/-! ### ModelManager.validate_request_success (models/resource.py) -/

/-- Embeds `ModelManager.validate_request_success`: compare the observed
status code against the expected one; on mismatch raise
`BadHttpRequestError` with the formatted message (the "reponse" typo is in
the source). -/
def ModelManager.validate_request_success
    (response_text request_url : String)
    (status_code expected_status_code : Nat) : Except PyError Unit :=
  if status_code = expected_status_code then .ok ()
  else .error (.badHttpRequestError
    ("Request to " ++ request_url ++ " failed with status "
      ++ toString status_code ++ ":\n"
      ++ "The reponse from the request was as follows:\n\n"
      ++ response_text))

/-- C5: `validate_request_success` raises a bad-request error if and only if
the observed status code differs from the expected one; the raised message
contains the request URL, the observed status code, and the raw response
body; on match nothing is raised. -/
theorem validate_request_success_iff_and_message
    (response_text request_url : String) (status_code expected : Nat) :
    (ModelManager.validate_request_success
        response_text request_url status_code expected = .ok ()
      ↔ status_code = expected) ∧
    (status_code ≠ expected →
      ∃ msg,
        ModelManager.validate_request_success
            response_text request_url status_code expected
          = .error (.badHttpRequestError msg) ∧
        (∃ a b, msg = a ++ request_url ++ b) ∧
        (∃ a b, msg = a ++ toString status_code ++ b) ∧
        (∃ a, msg = a ++ response_text)) := by
  constructor
  · unfold ModelManager.validate_request_success
    split
    · simp [*]
    · simp [*]
  · intro hne
    refine ⟨"Request to " ++ request_url ++ " failed with status "
      ++ toString status_code ++ ":\n"
      ++ "The reponse from the request was as follows:\n\n"
      ++ response_text, ?_, ?_, ?_, ?_⟩
    · unfold ModelManager.validate_request_success
      split
      · exact absurd (by assumption) hne
      · rfl
    · exact ⟨"Request to ", " failed with status " ++ toString status_code
        ++ ":\n" ++ "The reponse from the request was as follows:\n\n"
        ++ response_text, by simp [String.append_assoc]⟩
    · exact ⟨"Request to " ++ request_url ++ " failed with status ",
        ":\n" ++ "The reponse from the request was as follows:\n\n"
        ++ response_text, by simp [String.append_assoc]⟩
    · exact ⟨_, rfl⟩

/-- C5 witness: a concrete `put`-style mismatch (expected 200, observed 400)
raises with the URL, status, and body embedded in the message. -/
theorem validate_request_success_iff_and_message_witness :
    ((400 : Nat) ≠ 200) ∧
    (∃ msg,
      ModelManager.validate_request_success
          "bad data" "https://example.com/api/taskqueues/1/" 400 200
        = .error (.badHttpRequestError msg) ∧
      (∃ a b, msg = a ++ "https://example.com/api/taskqueues/1/" ++ b) ∧
      (∃ a b, msg = a ++ toString (400 : Nat) ++ b) ∧
      (∃ a, msg = a ++ "bad data")) :=
  ⟨by decide,
    (validate_request_success_iff_and_message
      "bad data" "https://example.com/api/taskqueues/1/" 400 200).2
      (by decide)⟩

/-! ### Generic manager operations (models/resource.py) -/

/-- Replace every occurrence of the pattern `pat` in a character list,
scanning left to right (the semantics of Python string substitution). The
fuel argument makes the recursion structural; `fuel = length of the list`
always suffices because every step consumes at least one character. -/
def listReplace (pat rep : List Char) : Nat → List Char → List Char
  | _, [] => []
  | 0, s => s
  | fuel + 1, c :: rest =>
    if !pat.isEmpty && pat.isPrefixOf (c :: rest) then
      rep ++ listReplace pat rep fuel ((c :: rest).drop pat.length)
    else
      c :: listReplace pat rep fuel rest

/-- Python `template.format(key=val)` for a template whose only placeholder
is `{key}`: substitute `val` for each occurrence of the placeholder. -/
def pyFormat (template key val : String) : String :=
  ⟨listReplace ("\x7b" ++ key ++ "\x7d").data val.data
    template.data.length template.data⟩

/-- Outcome of a manager operation that may issue HTTP requests: the request
URLs issued, in order, and the returned value or raised exception. -/
structure GetOutcome (mu : Type) where
  requests : List String
  result : Except PyError mu

/-- Embeds `ModelManager.get`: build the detail URL by substituting the
identifier into the `{id}` slot of `detail_url`, issue one GET, validate the
status against 200, and convert the response body to a model. The conversion
function stands for `response_data_to_model_instance` (overridden per
manager), which may itself raise. -/
def ModelManager.get {alpha mu : Type}
    (session_get : String → HttpResponse alpha)
    (toModel : alpha → Except PyError mu)
    (base_api_url detail_url : String) (id : String) : GetOutcome mu :=
  let request_url := base_api_url ++ pyFormat detail_url "id" id
  let response := session_get request_url
  { requests := [request_url]
    result := do
      _ ← ModelManager.validate_request_success
        response.text request_url response.status_code HTTP_200_OK
      toModel response.json }

/-- A query-filter value: Python ints and strings as they appear in filter
dicts (rendered by `str` inside the format call). -/
inductive FilterVal : Type
  | int (n : Int)
  | str (s : String)
deriving DecidableEq

/-- Python `str` on a filter value. -/
def FilterVal.render : FilterVal → String
  | .int n => toString n
  | .str s => s

/-- The filters dict passed to `ModelManager.list`. -/
abbrev Filters := PyDict FilterVal

/-- Embeds the pagination-defaulting prologue of `ModelManager.list`: add
`page = 1` when the key `page` is absent and
`page_size = 9223372036854775807` (2^63 - 1) when `page_size` is absent. -/
def addPaginationFilters (f : Filters) : Filters :=
  let f1 := if dictContains f "page" then f else dictSet f "page" (.int 1)
  if dictContains f1 "page_size" then f1
  else dictSet f1 "page_size" (.int 9223372036854775807)

/-- Embeds the query-string construction of `ModelManager.list`: iterate the
filters in insertion order, prepending `?` before the first parameter and
`&` before the rest. -/
def buildQuery (f : Filters) : String :=
  String.join (f.enum.map (fun p =>
    (if p.1 == 0 then "?" else "&") ++ p.2.1 ++ "=" ++ p.2.2.render))

/-- The `results` array of a list-endpoint response body. -/
structure ResultsPage (alpha : Type) where
  results : List alpha
deriving DecidableEq

/-- Sequential conversion of the `results` array, stopping at the first
raised exception: embeds the list comprehension in
`response_data_to_model_instances_list`. -/
def exceptMapM {alpha beta : Type} (f : alpha → Except PyError beta) :
    List alpha → Except PyError (List beta)
  | [] => .ok []
  | x :: xs => do
    let y ← f x
    let ys ← exceptMapM f xs
    .ok (y :: ys)

/-- Outcome of `ModelManager.list`: requests issued, result, and the final
state of the dict object the caller passed in (`none` when the caller passed
no dict; the caller's own dict is mutated in place unless it was empty, in
which case the code rebound the local name to a fresh dict). -/
structure ListOutcome (mu : Type) where
  requests : List String
  result : Except PyError (List mu)
  filtersFinal : Option Filters

/-- Embeds `ModelManager.list`: replace a falsy filters argument (`None` or
the empty dict) by a fresh empty dict, insert the pagination defaults into
the dict in place, build the query string in insertion order, issue one GET,
validate against 200, and map the response's `results` array through the
model conversion. -/
def ModelManager.list {alpha mu : Type}
    (session_get : String → HttpResponse (ResultsPage alpha))
    (toModel : alpha → Except PyError mu)
    (base_api_url list_url : String)
    (filters0 : Option Filters) : ListOutcome mu :=
  let filters : Filters := match filters0 with
    | none => []
    | some f => f
  let filters := addPaginationFilters filters
  let filtersFinal : Option Filters := match filters0 with
    | none => none
    | some f => if f.isEmpty then some f else some filters
  let request_url := base_api_url ++ list_url ++ buildQuery filters
  let response := session_get request_url
  { requests := [request_url]
    result := do
      _ ← ModelManager.validate_request_success
        response.text request_url response.status_code HTTP_200_OK
      exceptMapM toModel response.json.results
    filtersFinal := filtersFinal }

/-! ### Dict lemmas used for the pagination claims -/

theorem dictSet_of_not_contains {V : Type} (d : PyDict V) (k : String) (v : V)
    (h : dictContains d k = false) : dictSet d k v = d ++ [(k, v)] := by
  simp [dictSet, h]

theorem dictContains_append {V : Type} (d e : PyDict V) (k : String) :
    dictContains (d ++ e) k = (dictContains d k || dictContains e k) := by
  simp [dictContains, List.any_append]

theorem dictContains_of_mem {V : Type} {d : PyDict V} {k : String} {v : V}
    (h : (k, v) ∈ d) : dictContains d k = true := by
  simp only [dictContains, List.any_eq_true]
  exact ⟨(k, v), h, by simp⟩

theorem dictLookup_append_left {V : Type} (d e : PyDict V) (k : String)
    (h : dictContains d k = true) :
    dictLookup (d ++ e) k = dictLookup d k := by
  unfold dictLookup
  rw [List.find?_append]
  have hs : (d.find? (fun p => p.1 == k)).isSome := by
    rw [List.find?_isSome]
    simpa [dictContains, List.any_eq_true] using h
  cases hf : d.find? (fun p => p.1 == k) with
  | none => rw [hf] at hs; simp at hs
  | some p => simp [Option.or]

theorem addPaginationFilters_mem_page {f : Filters}
    (h : dictContains f "page" = false) :
    ("page", FilterVal.int 1) ∈ addPaginationFilters f := by
  unfold addPaginationFilters
  simp only [h, Bool.false_eq_true, if_false,
    dictSet_of_not_contains f "page" (FilterVal.int 1) h]
  split
  · exact List.mem_append_right _ (by simp)
  · rename_i hc
    rw [dictSet_of_not_contains _ _ _ (by simpa using hc)]
    exact List.mem_append_left _ (List.mem_append_right _ (by simp))

theorem addPaginationFilters_mem_page_size {f : Filters}
    (h : dictContains f "page_size" = false) :
    ("page_size", FilterVal.int 9223372036854775807)
      ∈ addPaginationFilters f := by
  unfold addPaginationFilters
  by_cases hp : dictContains f "page" = true
  · simp only [hp, if_true, h, Bool.false_eq_true, if_false]
    rw [dictSet_of_not_contains _ _ _ h]
    exact List.mem_append_right _ (by simp)
  · have hp2 : dictContains f "page" = false := by simpa using hp
    have h1 : dictContains (f ++ [("page", FilterVal.int 1)]) "page_size"
        = false := by
      rw [dictContains_append, h]
      decide
    simp only [hp2, Bool.false_eq_true, if_false,
      dictSet_of_not_contains f "page" (FilterVal.int 1) hp2, h1]
    rw [dictSet_of_not_contains _ _ _ h1]
    exact List.mem_append_right _ (by simp)

theorem addPaginationFilters_lookup_page {f : Filters}
    (h : dictContains f "page" = true) :
    dictLookup (addPaginationFilters f) "page" = dictLookup f "page" := by
  unfold addPaginationFilters
  simp only [h, if_true]
  split
  · rfl
  · rename_i hc
    rw [dictSet_of_not_contains _ _ _ (by simpa using hc)]
    exact dictLookup_append_left f _ "page" h

theorem addPaginationFilters_lookup_page_size {f : Filters}
    (h : dictContains f "page_size" = true) :
    dictLookup (addPaginationFilters f) "page_size"
      = dictLookup f "page_size" := by
  unfold addPaginationFilters
  split
  · simp [h]
  · rename_i hp
    rw [dictSet_of_not_contains _ _ _ (by simpa using hp)]
    have h1 : dictContains (f ++ [("page", FilterVal.int 1)]) "page_size"
        = true := by
      rw [dictContains_append, h]
      simp
    simp only [h1, if_true]
    exact dictLookup_append_left f _ "page_size" h

theorem exceptMapM_pure {alpha mu : Type} (g : alpha → mu) (xs : List alpha) :
    exceptMapM (fun x => .ok (g x)) xs = .ok (xs.map g) := by
  induction xs with
  | nil => rfl
  | cons x xs ih =>
    simp only [exceptMapM, ih]
    rfl

/-- Unfolding lemma for `ModelManager.list` on an explicitly passed dict. -/
theorem ModelManager.list_some {alpha mu : Type}
    (session_get : String → HttpResponse (ResultsPage alpha))
    (toModel : alpha → Except PyError mu)
    (base_api_url list_url : String) (f : Filters) :
    ModelManager.list session_get toModel base_api_url list_url (some f) =
      { requests :=
          [base_api_url ++ list_url ++ buildQuery (addPaginationFilters f)]
        result := do
          _ ← ModelManager.validate_request_success
            (session_get (base_api_url ++ list_url
              ++ buildQuery (addPaginationFilters f))).text
            (base_api_url ++ list_url ++ buildQuery (addPaginationFilters f))
            (session_get (base_api_url ++ list_url
              ++ buildQuery (addPaginationFilters f))).status_code
            HTTP_200_OK
          exceptMapM toModel (session_get (base_api_url ++ list_url
            ++ buildQuery (addPaginationFilters f))).json.results
        filtersFinal :=
          if f.isEmpty then some f else some (addPaginationFilters f) } := rfl

/-- C3: `list()` injects `page = 1` and `page_size = 2^63 - 1` into the query
filters exactly when the caller did not supply them, never overwrites
caller-supplied values for those keys, and on a 200 response returns one
typed model instance per element of the results array, in response order. -/
theorem list_pagination_and_results {alpha mu : Type}
    (session_get : String → HttpResponse (ResultsPage alpha))
    (toModelPure : alpha → mu) (base_api_url list_url : String)
    (f : Filters) :
    (dictContains f "page" = false →
      ("page", FilterVal.int 1) ∈ addPaginationFilters f) ∧
    (dictContains f "page_size" = false →
      ("page_size", FilterVal.int 9223372036854775807)
        ∈ addPaginationFilters f) ∧
    (dictContains f "page" = true →
      dictLookup (addPaginationFilters f) "page" = dictLookup f "page") ∧
    (dictContains f "page_size" = true →
      dictLookup (addPaginationFilters f) "page_size"
        = dictLookup f "page_size") ∧
    ((ModelManager.list session_get (fun a => .ok (toModelPure a))
        base_api_url list_url (some f)).requests
      = [base_api_url ++ list_url ++ buildQuery (addPaginationFilters f)]) ∧
    ((session_get (base_api_url ++ list_url
        ++ buildQuery (addPaginationFilters f))).status_code = HTTP_200_OK →
      (ModelManager.list session_get (fun a => .ok (toModelPure a))
          base_api_url list_url (some f)).result
        = .ok ((session_get (base_api_url ++ list_url
            ++ buildQuery (addPaginationFilters f))).json.results.map
              toModelPure)) := by
  refine ⟨fun h => addPaginationFilters_mem_page h,
    fun h => addPaginationFilters_mem_page_size h,
    fun h => addPaginationFilters_lookup_page h,
    fun h => addPaginationFilters_lookup_page_size h, ?_, ?_⟩
  · rw [ModelManager.list_some]
  · intro hstatus
    rw [ModelManager.list_some]
    simp only [ModelManager.validate_request_success, hstatus, if_pos rfl]
    simpa using exceptMapM_pure toModelPure _

/-- C3 witness: a filters dict without `page`/`page_size` gets both injected,
and a concrete 200 response with two results maps to two models in order. -/
theorem list_pagination_and_results_witness :
    (dictContains [("name", FilterVal.str "x")] "page" = false) ∧
    ("page", FilterVal.int 1)
      ∈ addPaginationFilters [("name", FilterVal.str "x")] ∧
    ("page_size", FilterVal.int 9223372036854775807)
      ∈ addPaginationFilters [("name", FilterVal.str "x")] ∧
    (ModelManager.list (fun _ => ⟨"body", 200, ⟨[3, 7]⟩⟩)
        (fun (a : Nat) => .ok (a + 1)) "https://a/" "taskqueues/"
        (some [("name", FilterVal.str "x")])).result = .ok [4, 8] := by
  have h := list_pagination_and_results
    (fun _ => (⟨"body", 200, ⟨[3, 7]⟩⟩ : HttpResponse (ResultsPage Nat)))
    (fun a => a + 1) "https://a/" "taskqueues/" [("name", FilterVal.str "x")]
  refine ⟨by decide, h.1 (by decide), h.2.1 (by decide), ?_⟩
  have h6 := h.2.2.2.2.2 rfl
  simpa using h6

/-- C10: for a caller-supplied non-empty filters dict lacking `page` and
`page_size`, `list()` mutates the caller's own dict in place: after the call
(whatever the response status, success or failure) the caller's dict is the
pagination-extended dict, containing `page` and `page_size` entries the
caller did not put there. -/
theorem list_mutates_caller_filters {alpha mu : Type}
    (session_get : String → HttpResponse (ResultsPage alpha))
    (toModel : alpha → Except PyError mu) (base_api_url list_url : String)
    (f : Filters) (hne : f ≠ [])
    (hp : dictContains f "page" = false)
    (hps : dictContains f "page_size" = false) :
    (ModelManager.list session_get toModel base_api_url list_url
        (some f)).filtersFinal = some (addPaginationFilters f) ∧
    ("page", FilterVal.int 1) ∈ addPaginationFilters f ∧
    ("page_size", FilterVal.int 9223372036854775807)
      ∈ addPaginationFilters f ∧
    dictContains (addPaginationFilters f) "page" = true ∧
    dictContains (addPaginationFilters f) "page_size" = true := by
  refine ⟨?_, addPaginationFilters_mem_page hp,
    addPaginationFilters_mem_page_size hps,
    dictContains_of_mem (addPaginationFilters_mem_page hp),
    dictContains_of_mem (addPaginationFilters_mem_page_size hps)⟩
  rw [ModelManager.list_some]
  simp [List.isEmpty_iff, hne]

/-- C10 witness: a concrete non-empty filters dict, against a server that
even reports a failure status, still ends up holding `page` and `page_size`. -/
theorem list_mutates_caller_filters_witness :
    ([("name", FilterVal.str "x")] ≠ ([] : Filters)) ∧
    (ModelManager.list (fun _ => ⟨"err", 500, ⟨([] : List Nat)⟩⟩)
        (fun (a : Nat) => .ok a) "https://a/" "taskqueues/"
        (some [("name", FilterVal.str "x")])).filtersFinal
      = some (addPaginationFilters [("name", FilterVal.str "x")]) ∧
    dictContains
      (addPaginationFilters [("name", FilterVal.str "x")]) "page" = true ∧
    dictContains
      (addPaginationFilters [("name", FilterVal.str "x")]) "page_size"
      = true := by
  have h := list_mutates_caller_filters
    (fun _ => (⟨"err", 500, ⟨([] : List Nat)⟩⟩ : HttpResponse (ResultsPage Nat)))
    (fun (a : Nat) => .ok a) "https://a/" "taskqueues/"
    [("name", FilterVal.str "x")] (by decide) (by decide) (by decide)
  exact ⟨by decide, h.1, h.2.2.2.1, h.2.2.2.2⟩

/-! ### Task instances (models/base_task_instance.py) -/

/-- A datetime-valued model field after response post-processing: Python
`None`, an unparsed string left in place (a falsy empty string skips the
coercion), or a parsed structured datetime. -/
inductive PyDT (DT : Type) : Type
  | null
  | raw (s : String)
  | dt (d : DT)
deriving DecidableEq

/-- The JSON body of a task-instance response: `datetime_created` is always
present as a wire string, `datetime_finished` is present but possibly null. -/
structure TaskInstanceWire where
  uuid : String
  name : String
  state : String
  user : String
  task_queue : Int
  task_type : Int
  datetime_created : String
  datetime_finished : Option String
  arguments : PyDict String
deriving DecidableEq

/-- Embeds the `BaseTaskInstance` model: the constructor stores each field,
plus the manager back-reference (`DT` is the structured datetime type
produced by the parser, `M` the manager type). -/
structure BaseTaskInstance (DT M : Type) where
  name : String
  uuid : String
  state : String
  user : String
  task_queue : Int
  task_type : Int
  datetime_created : DT
  datetime_finished : PyDT DT
  arguments : PyDict String
  manager : M
deriving DecidableEq

/-- Lift an abstract `dateutil.parser.parse` (which raises `ValueError` on
malformed input) into the embedded exception monad. -/
def pyParse {DT : Type} (parse : String → Except String DT) (s : String) :
    Except PyError DT :=
  match parse s with
  | .ok v => .ok v
  | .error e => .error (.valueError e)

/-- Embeds `BaseTaskInstanceManager.response_data_to_model_instance`: parse
`datetime_created` unconditionally; parse `datetime_finished` only when it
is truthy (non-null and non-empty), leaving `None` and the empty string as
they are; then construct the model with the manager added in. -/
def BaseTaskInstanceManager.response_data_to_model_instance {DT M : Type}
    (parse : String → Except String DT) (manager : M)
    (response_data : TaskInstanceWire) :
    Except PyError (BaseTaskInstance DT M) := do
  let datetime_created ← pyParse parse response_data.datetime_created
  let datetime_finished : PyDT DT ←
    match response_data.datetime_finished with
    | none => .ok .null
    | some s =>
      if s.isEmpty then .ok (.raw s)
      else do
        let v ← pyParse parse s
        .ok (.dt v)
  .ok { name := response_data.name
        uuid := response_data.uuid
        state := response_data.state
        user := response_data.user
        task_queue := response_data.task_queue
        task_type := response_data.task_type
        datetime_created := datetime_created
        datetime_finished := datetime_finished
        arguments := response_data.arguments
        manager := manager }

/-- C7: model construction parses `datetime_created` from its wire string,
and a response with `datetime_finished` null and state `"running"` yields a
model whose `datetime_finished` is the null value (no parse error) and whose
state is exactly `"running"`. -/
theorem response_data_to_model_instance_null_finished {DT M : Type}
    (parse : String → Except String DT) (manager : M)
    (d : TaskInstanceWire) (c : DT)
    (hfin : d.datetime_finished = none)
    (hstate : d.state = "running")
    (hcreated : parse d.datetime_created = .ok c) :
    BaseTaskInstanceManager.response_data_to_model_instance parse manager d
      = .ok { name := d.name
              uuid := d.uuid
              state := "running"
              user := d.user
              task_queue := d.task_queue
              task_type := d.task_type
              datetime_created := c
              datetime_finished := PyDT.null
              arguments := d.arguments
              manager := manager } := by
  unfold BaseTaskInstanceManager.response_data_to_model_instance
  rw [hfin]
  simp only [pyParse, hcreated, hstate]
  rfl

/-- C7 witness: a concrete running instance with a null finish timestamp is
constructed without a parse error, keeping the null and the state. -/
theorem response_data_to_model_instance_null_finished_witness :
    (some "2018-01-01" ≠ none → True) ∧
    BaseTaskInstanceManager.response_data_to_model_instance
        (fun s => if s = "2018-01-01" then .ok (1514764800 : Nat)
          else .error "bad date")
        ()
        { uuid := "u-1", name := "", state := "running", user := "me",
          task_queue := 1, task_type := 2,
          datetime_created := "2018-01-01", datetime_finished := none,
          arguments := [] }
      = .ok { name := "", uuid := "u-1", state := "running", user := "me",
              task_queue := 1, task_type := 2,
              datetime_created := 1514764800,
              datetime_finished := PyDT.null, arguments := [],
              manager := () } :=
  ⟨fun _ => trivial,
    response_data_to_model_instance_null_finished
      (fun s => if s = "2018-01-01" then .ok (1514764800 : Nat)
        else .error "bad date")
      () _ _ rfl rfl (by simp)⟩

/-! ### The polling protocol: BaseTaskInstanceManager.wait_until_finished -/

/-- Embeds the body of `wait_until_finished`: `fetch k` is the instance
returned by the `(k+1)`-th `self.get(uuid)`; while the fetched state is not
in `TASK_INSTANCE_FINISH_STATUSES`, record a sleep of `refresh_period`
seconds and fetch again. The `fuel` bound makes the unbounded `while` loop a
total function; `none` means the loop had not yet returned after `fuel`
fetches. The returned list holds the durations slept, in order. -/
def BaseTaskInstanceManager.wait_loop {DT M : Type}
    (fetch : Nat → BaseTaskInstance DT M) (refresh_period : Nat) :
    Nat → Nat → Option (List Nat × BaseTaskInstance DT M)
  | 0, _ => none
  | fuel + 1, k =>
    let task_instance := fetch k
    if TASK_INSTANCE_FINISH_STATUSES.contains task_instance.state then
      some ([], task_instance)
    else
      (BaseTaskInstanceManager.wait_loop fetch refresh_period fuel (k + 1)).map
        (fun r => (refresh_period :: r.1, r.2))

/-- Embeds `wait_until_finished(uuid, refresh_period)`: first fetch, then
the polling loop. -/
def BaseTaskInstanceManager.wait_until_finished {DT M : Type}
    (fetch : Nat → BaseTaskInstance DT M) (fuel : Nat)
    (refresh_period : Nat := DEFAULT_TASK_INSTANCE_WAIT_REFRESH_PERIOD) :
    Option (List Nat × BaseTaskInstance DT M) :=
  BaseTaskInstanceManager.wait_loop fetch refresh_period fuel 0

theorem wait_loop_spec {DT M : Type}
    (fetch : Nat → BaseTaskInstance DT M) (r : Nat) :
    ∀ fuel k ss ti,
      BaseTaskInstanceManager.wait_loop fetch r fuel k = some (ss, ti) →
      ∃ n, k ≤ n ∧ ti = fetch n ∧
        TASK_INSTANCE_FINISH_STATUSES.contains (fetch n).state = true ∧
        ss = List.replicate (n - k) r ∧
        ∀ m, k ≤ m → m < n →
          TASK_INSTANCE_FINISH_STATUSES.contains (fetch m).state = false := by
  intro fuel
  induction fuel with
  | zero => intro k ss ti h; simp [BaseTaskInstanceManager.wait_loop] at h
  | succ fuel ih =>
    intro k ss ti h
    unfold BaseTaskInstanceManager.wait_loop at h
    by_cases hk : TASK_INSTANCE_FINISH_STATUSES.contains (fetch k).state = true
    · simp only [hk, if_true, Option.some.injEq, Prod.mk.injEq] at h
      refine ⟨k, le_refl k, h.2.symm, hk, ?_, ?_⟩
      · simp [h.1.symm]
      · intro m hm1 hm2; omega
    · simp only [hk, Bool.false_eq_true, if_false, Option.map_eq_some'] at h
      obtain ⟨⟨ss1, ti1⟩, hloop, heq⟩ := h
      obtain ⟨n, hn1, hn2, hn3, hn4, hn5⟩ := ih (k + 1) ss1 ti1 hloop
      refine ⟨n, by omega, ?_, hn3, ?_, ?_⟩
      · simp only [Prod.mk.injEq] at heq
        rw [← heq.2]; exact hn2
      · simp only [Prod.mk.injEq] at heq
        rw [← heq.1, hn4]
        have : n - k = (n - (k + 1)) + 1 := by omega
        rw [this, List.replicate_succ]
      · intro m hm1 hm2
        rcases Nat.eq_or_lt_of_le hm1 with hm | hm
        · rw [← hm]; simpa using hk
        · exact hn5 m hm hm2

/-- C1: when `wait_until_finished` returns, the returned instance is the
first-observed terminal-state fetch: its state is in
`TASK_INSTANCE_FINISH_STATUSES`, every earlier fetch was non-terminal, the
loop slept exactly `refresh_period` seconds between consecutive fetches (one
sleep per non-terminal fetch), and if the first fetch was already terminal
no sleep occurred. -/
theorem wait_until_finished_correct {DT M : Type}
    (fetch : Nat → BaseTaskInstance DT M) (refresh_period fuel : Nat)
    (ss : List Nat) (ti : BaseTaskInstance DT M)
    (h : BaseTaskInstanceManager.wait_until_finished fetch fuel refresh_period
      = some (ss, ti)) :
    TASK_INSTANCE_FINISH_STATUSES.contains ti.state = true ∧
    ∃ n, ti = fetch n ∧ ss = List.replicate n refresh_period ∧
      (∀ m, m < n →
        TASK_INSTANCE_FINISH_STATUSES.contains (fetch m).state = false) ∧
      (TASK_INSTANCE_FINISH_STATUSES.contains (fetch 0).state = true →
        ss = [] ∧ ti = fetch 0) := by
  obtain ⟨n, _, hn2, hn3, hn4, hn5⟩ := wait_loop_spec fetch refresh_period
    fuel 0 ss ti h
  refine ⟨by rw [hn2]; exact hn3, n, hn2, by simpa using hn4,
    fun m hm => hn5 m (Nat.zero_le m) hm, ?_⟩
  intro h0
  have hn0 : n = 0 := by
    by_contra hne
    have := hn5 0 (le_refl 0) (by omega)
    rw [h0] at this
    exact absurd this (by simp)
  subst hn0
  exact ⟨by simpa using hn4, hn2⟩

/-- A concrete already-finished task instance used by witnesses. -/
def sampleFinishedInstance : BaseTaskInstance Nat Unit where
  name := ""
  uuid := "u"
  state := "successful"
  user := "me"
  task_queue := 1
  task_type := 2
  datetime_created := 0
  datetime_finished := PyDT.null
  arguments := []
  manager := ()

/-- C1 witness: a fetch sequence that is terminal on the first observation
returns it with no sleeps, at fuel 1. -/
theorem wait_until_finished_correct_witness :
    (BaseTaskInstanceManager.wait_until_finished
        (fun _ => sampleFinishedInstance) 1 5
      = some ([], sampleFinishedInstance)) ∧
    TASK_INSTANCE_FINISH_STATUSES.contains
      sampleFinishedInstance.state = true :=
  ⟨by decide,
    (wait_until_finished_correct (fun _ => sampleFinishedInstance) 5 1 []
      sampleFinishedInstance (by decide)).1⟩

/-! ### Task-instance manager get variants (C2) -/

/-- Models CPython keyword-argument binding for the four-parameter
staticmethod `validate_request_success`: each argument is `some` when the
call site supplies it; a missing required parameter raises `TypeError`
before the body runs. -/
def validate_request_success_kw
    (response_text request_url : Option String)
    (status_code expected_status_code : Option Nat) : Except PyError Unit :=
  match response_text, request_url, status_code, expected_status_code with
  | some t, some u, some s, some e =>
    ModelManager.validate_request_success t u s e
  | none, _, _, _ => .error (.typeError
      "validate_request_success() missing 1 required positional argument: response_text")
  | _, none, _, _ => .error (.typeError
      "validate_request_success() missing 1 required positional argument: request_url")
  | _, _, none, _ => .error (.typeError
      "validate_request_success() missing 1 required positional argument: status_code")
  | _, _, _, none => .error (.typeError
      "validate_request_success() missing 1 required positional argument: expected_status_code")

/-- Embeds `BaseTaskInstanceManager.get`: identical to the parent get with
the UUID substituted for the generic id path parameter, converting through
the task-instance response post-processing. -/
def BaseTaskInstanceManager.get {DT M : Type}
    (session_get : String → HttpResponse TaskInstanceWire)
    (parse : String → Except String DT) (manager : M)
    (base_api_url detail_url : String) (uuid : String) :
    GetOutcome (BaseTaskInstance DT M) :=
  ModelManager.get session_get
    (BaseTaskInstanceManager.response_data_to_model_instance parse manager)
    base_api_url detail_url uuid

def ContainerTaskInstanceManager.detail_url : String :=
  "containertaskinstances/{id}/"

/-- The container variant inherits the base get unchanged. -/
def ContainerTaskInstanceManager.get {DT M : Type}
    (session_get : String → HttpResponse TaskInstanceWire)
    (parse : String → Except String DT) (manager : M)
    (base_api_url : String) (uuid : String) :
    GetOutcome (BaseTaskInstance DT M) :=
  BaseTaskInstanceManager.get session_get parse manager base_api_url
    ContainerTaskInstanceManager.detail_url uuid

def ExecutableTaskInstanceManager.detail_url : String :=
  "executabletaskinstances/{uuid}/"

/-- Embeds `ExecutableTaskInstanceManager.get`, which overrides the base get
with its own body: it builds the detail URL, issues the GET, then calls
`validate_request_success` WITHOUT the required `response_text` argument
(raising `TypeError` at the call), and would afterwards coerce the datetime
fields and construct `ExecutableTaskInstance(**response_data)` without the
required `manager` argument (another `TypeError`). -/
def ExecutableTaskInstanceManager.get {DT M : Type}
    (session_get : String → HttpResponse TaskInstanceWire)
    (parse : String → Except String DT)
    (base_api_url : String) (uuid : String) :
    GetOutcome (BaseTaskInstance DT M) :=
  let request_url := base_api_url
    ++ pyFormat ExecutableTaskInstanceManager.detail_url "uuid" uuid
  let response := session_get request_url
  { requests := [request_url]
    result := do
      _ ← validate_request_success_kw none (some request_url)
        (some response.status_code) (some HTTP_200_OK)
      let response_data := response.json
      let _created ← pyParse parse response_data.datetime_created
      let _finished ← (match response_data.datetime_finished with
        | none => Except.ok PyDT.null
        | some s =>
          if s.isEmpty then Except.ok (PyDT.raw s)
          else do
            let v ← pyParse parse s
            Except.ok (PyDT.dt v) : Except PyError (PyDT DT))
      .error (.typeError
        "__init__() missing 1 required positional argument: manager") }

/-- C2: the executable variant's `get` does NOT behave like the generic
manager get: for every server, parser, base URL and UUID it raises
`TypeError` because its own body calls `validate_request_success` without
the required `response_text` argument, before any status comparison; it can
never return a typed model instance. -/
theorem executable_task_instance_get_always_raises {DT M : Type}
    (session_get : String → HttpResponse TaskInstanceWire)
    (parse : String → Except String DT)
    (base_api_url uuid : String) :
    (@ExecutableTaskInstanceManager.get DT M
        session_get parse base_api_url uuid).result
      = .error (.typeError
        "validate_request_success() missing 1 required positional argument: response_text") := rfl

/-! ### Name-or-id get (models/base_task_type.py, models/task_queue.py) -/

/-- Python `xs[0]`: first element, or `IndexError` on an empty list. -/
def pyIndex0 {mu : Type} : List mu → Except PyError mu
  | [] => .error .indexError
  | x :: _ => .ok x

/-- Embeds the shared body of `BaseTaskTypeManager.get` and
`TaskQueueManager.get` (the two are textually identical up to URL constants
and model type): when not exactly one of `id`/`name` is given, raise
`ValueError` before any request; on id alone, delegate to the generic get;
on name alone, return `list(filters = dict(name = name))[0]`. -/
def getByIdOrName {alpha mu : Type}
    (session_get : String → HttpResponse alpha)
    (session_get_list : String → HttpResponse (ResultsPage alpha))
    (toModel : alpha → Except PyError mu)
    (base_api_url detail_url list_url : String)
    (id : Option String) (name : Option String) : GetOutcome mu :=
  match id, name with
  | some _, some _ =>
    { requests := []
      result := .error (.valueError
        "Either id or name must be set (but not both!)") }
  | none, none =>
    { requests := []
      result := .error (.valueError
        "Either id or name must be set (but not both!)") }
  | some i, none =>
    ModelManager.get session_get toModel base_api_url detail_url i
  | none, some nm =>
    let lo := ModelManager.list session_get_list toModel base_api_url
      list_url (some [("name", FilterVal.str nm)])
    { requests := lo.requests
      result := do
        let xs ← lo.result
        pyIndex0 xs }

/-- C4: supplying both or neither of id and name raises `ValueError` with no
HTTP request issued; id alone delegates to the generic get; name alone
returns the first element of `list(filters = dict(name = name))`. -/
theorem get_by_id_or_name_cases {alpha mu : Type}
    (session_get : String → HttpResponse alpha)
    (session_get_list : String → HttpResponse (ResultsPage alpha))
    (toModel : alpha → Except PyError mu)
    (base_api_url detail_url list_url : String)
    (i nm : String) :
    (getByIdOrName session_get session_get_list toModel base_api_url
        detail_url list_url (some i) (some nm)
      = { requests := []
          result := .error (.valueError
            "Either id or name must be set (but not both!)") }) ∧
    (getByIdOrName session_get session_get_list toModel base_api_url
        detail_url list_url none none
      = { requests := []
          result := .error (.valueError
            "Either id or name must be set (but not both!)") }) ∧
    (getByIdOrName session_get session_get_list toModel base_api_url
        detail_url list_url (some i) none
      = ModelManager.get session_get toModel base_api_url detail_url i) ∧
    (getByIdOrName session_get session_get_list toModel base_api_url
          detail_url list_url none (some nm)
        = { requests := (ModelManager.list session_get_list toModel
              base_api_url list_url
              (some [("name", FilterVal.str nm)])).requests
            result := do
              let xs ← (ModelManager.list session_get_list toModel
                base_api_url list_url
                (some [("name", FilterVal.str nm)])).result
              pyIndex0 xs }) :=
  ⟨rfl, rfl, rfl, rfl⟩

/-! ### Clone and terminate fan-out (models/base_task_instance.py) -/

/-- Embeds a Python list comprehension `[g(u) for u in uuids]` where each
`g` call issues requests and may raise: calls run sequentially in input
order; a raised exception propagates at once, so later elements are never
attempted, and the requests already issued stay issued. -/
def pySeqMap {mu : Type} (f : String → List String × Except PyError mu) :
    List String → List String × Except PyError (List mu)
  | [] => ([], .ok [])
  | u :: us =>
    let r := f u
    match r.2 with
    | .error e => (r.1, .error e)
    | .ok m =>
      let rest := pySeqMap f us
      (r.1 ++ rest.1, rest.2.map (fun ms => m :: ms))

/-- Embeds `BaseTaskInstanceManager.clone`: one POST to the per-instance
clone endpoint, expecting 201, converting the response body to a model. -/
def BaseTaskInstanceManager.clone {DT M : Type}
    (session_post : String → HttpResponse TaskInstanceWire)
    (parse : String → Except String DT) (manager : M)
    (base_api_url clone_url : String) (uuid : String) :
    List String × Except PyError (BaseTaskInstance DT M) :=
  let request_url := base_api_url ++ pyFormat clone_url "id" uuid
  let response := session_post request_url
  ([request_url],
    do
      _ ← ModelManager.validate_request_success response.text request_url
        response.status_code HTTP_201_CREATED
      BaseTaskInstanceManager.response_data_to_model_instance parse manager
        response.json)

/-- Embeds `BaseTaskInstanceManager.clone_many`:
`[self.clone(uuid) for uuid in uuids]`. -/
def BaseTaskInstanceManager.clone_many {DT M : Type}
    (session_post : String → HttpResponse TaskInstanceWire)
    (parse : String → Except String DT) (manager : M)
    (base_api_url clone_url : String) (uuids : List String) :
    List String × Except PyError (List (BaseTaskInstance DT M)) :=
  pySeqMap (BaseTaskInstanceManager.clone session_post parse manager
    base_api_url clone_url) uuids

/-- Embeds `BaseTaskInstanceManager.terminate`: one POST to the per-instance
terminate endpoint, expecting 202, converting the response body to a model. -/
def BaseTaskInstanceManager.terminate {DT M : Type}
    (session_post : String → HttpResponse TaskInstanceWire)
    (parse : String → Except String DT) (manager : M)
    (base_api_url terminate_url : String) (uuid : String) :
    List String × Except PyError (BaseTaskInstance DT M) :=
  let request_url := base_api_url ++ pyFormat terminate_url "id" uuid
  let response := session_post request_url
  ([request_url],
    do
      _ ← ModelManager.validate_request_success response.text request_url
        response.status_code HTTP_202_ACCEPTED
      BaseTaskInstanceManager.response_data_to_model_instance parse manager
        response.json)

/-- Embeds `BaseTaskInstanceManager.terminate_many`:
`[self.terminate(uuid) for uuid in uuids]`. -/
def BaseTaskInstanceManager.terminate_many {DT M : Type}
    (session_post : String → HttpResponse TaskInstanceWire)
    (parse : String → Except String DT) (manager : M)
    (base_api_url terminate_url : String) (uuids : List String) :
    List String × Except PyError (List (BaseTaskInstance DT M)) :=
  pySeqMap (BaseTaskInstanceManager.terminate session_post parse manager
    base_api_url terminate_url) uuids

theorem pySeqMap_all_ok {mu : Type}
    (f : String → List String × Except PyError mu) :
    ∀ us, (∀ u ∈ us, ∃ m, (f u).2 = .ok m) →
      (pySeqMap f us).1 = us.flatMap (fun u => (f u).1) ∧
      ∃ ms, (pySeqMap f us).2 = .ok ms ∧ ms.length = us.length ∧
        ∀ i (h1 : i < us.length) (h2 : i < ms.length),
          (f (us.get ⟨i, h1⟩)).2 = .ok (ms.get ⟨i, h2⟩) := by
  intro us
  induction us with
  | nil =>
    intro _
    exact ⟨rfl, [], rfl, rfl, fun i h1 _ => absurd h1 (by simp)⟩
  | cons u us ih =>
    intro h
    obtain ⟨m, hm⟩ := h u (List.mem_cons_self u us)
    obtain ⟨hreq, ms, hms, hlen, hidx⟩ := ih (fun v hv => h v (List.mem_cons_of_mem u hv))
    constructor
    · simp only [pySeqMap, hm, hreq, List.flatMap_cons]
    · refine ⟨m :: ms, ?_, by simp [hlen], ?_⟩
      · simp only [pySeqMap, hm, hms]
        rfl
      · intro i h1 h2
        match i with
        | 0 => simpa using hm
        | j + 1 =>
          simp only [List.get_cons_succ]
          exact hidx j (by simpa using h1) (by simpa using h2)

theorem pySeqMap_first_error {mu : Type}
    (f : String → List String × Except PyError mu) :
    ∀ pre (u : String) post e,
      (∀ v ∈ pre, ∃ m, (f v).2 = .ok m) → (f u).2 = .error e →
      (pySeqMap f (pre ++ u :: post)).1
        = pre.flatMap (fun v => (f v).1) ++ (f u).1 ∧
      (pySeqMap f (pre ++ u :: post)).2 = .error e := by
  intro pre
  induction pre with
  | nil =>
    intro u post e _ hu
    constructor
    · simp only [List.nil_append, pySeqMap, hu, List.flatMap_nil]
    · simp only [List.nil_append, pySeqMap, hu]
  | cons v pre ih =>
    intro u post e hpre hu
    obtain ⟨m, hv⟩ := hpre v (List.mem_cons_self v pre)
    obtain ⟨ih1, ih2⟩ := ih u post e
      (fun w hw => hpre w (List.mem_cons_of_mem v hw)) hu
    constructor
    · simp only [List.cons_append, pySeqMap, hv, List.append_eq]
      rw [ih1, List.flatMap_cons, List.append_assoc]
    · simp only [List.cons_append, pySeqMap, hv, List.append_eq]
      rw [ih2]
      rfl

/-- C6: `clone_many` (and `terminate_many`) performs one clone (terminate)
call per UUID, sequentially in input order, returning results in the same
order; when the call for some UUID fails, the exception propagates, the
requests already issued for the earlier UUIDs stay issued (no rollback), and
no call is made for the later UUIDs. -/
theorem clone_many_terminate_many_sequential {DT M : Type}
    (session_post : String → HttpResponse TaskInstanceWire)
    (parse : String → Except String DT) (manager : M)
    (base_api_url clone_url terminate_url : String) (uuids : List String) :
    ((∀ u ∈ uuids, ∃ m, (BaseTaskInstanceManager.clone session_post parse
        manager base_api_url clone_url u).2 = .ok m) →
      (BaseTaskInstanceManager.clone_many session_post parse manager
          base_api_url clone_url uuids).1
        = uuids.flatMap (fun u => (BaseTaskInstanceManager.clone session_post
            parse manager base_api_url clone_url u).1) ∧
      ∃ ms, (BaseTaskInstanceManager.clone_many session_post parse manager
          base_api_url clone_url uuids).2 = .ok ms ∧
        ms.length = uuids.length ∧
        ∀ i (h1 : i < uuids.length) (h2 : i < ms.length),
          (BaseTaskInstanceManager.clone session_post parse manager
            base_api_url clone_url (uuids.get ⟨i, h1⟩)).2
            = .ok (ms.get ⟨i, h2⟩)) ∧
    (∀ pre u post e, uuids = pre ++ u :: post →
      (∀ v ∈ pre, ∃ m, (BaseTaskInstanceManager.clone session_post parse
        manager base_api_url clone_url v).2 = .ok m) →
      (BaseTaskInstanceManager.clone session_post parse manager base_api_url
        clone_url u).2 = .error e →
      (BaseTaskInstanceManager.clone_many session_post parse manager
          base_api_url clone_url uuids).1
        = pre.flatMap (fun v => (BaseTaskInstanceManager.clone session_post
            parse manager base_api_url clone_url v).1)
          ++ (BaseTaskInstanceManager.clone session_post parse manager
            base_api_url clone_url u).1 ∧
      (BaseTaskInstanceManager.clone_many session_post parse manager
        base_api_url clone_url uuids).2 = .error e) ∧
    ((∀ u ∈ uuids, ∃ m, (BaseTaskInstanceManager.terminate session_post parse
        manager base_api_url terminate_url u).2 = .ok m) →
      (BaseTaskInstanceManager.terminate_many session_post parse manager
          base_api_url terminate_url uuids).1
        = uuids.flatMap (fun u => (BaseTaskInstanceManager.terminate
            session_post parse manager base_api_url terminate_url u).1) ∧
      ∃ ms, (BaseTaskInstanceManager.terminate_many session_post parse
          manager base_api_url terminate_url uuids).2 = .ok ms ∧
        ms.length = uuids.length ∧
        ∀ i (h1 : i < uuids.length) (h2 : i < ms.length),
          (BaseTaskInstanceManager.terminate session_post parse manager
            base_api_url terminate_url (uuids.get ⟨i, h1⟩)).2
            = .ok (ms.get ⟨i, h2⟩)) ∧
    (∀ pre u post e, uuids = pre ++ u :: post →
      (∀ v ∈ pre, ∃ m, (BaseTaskInstanceManager.terminate session_post parse
        manager base_api_url terminate_url v).2 = .ok m) →
      (BaseTaskInstanceManager.terminate session_post parse manager
        base_api_url terminate_url u).2 = .error e →
      (BaseTaskInstanceManager.terminate_many session_post parse manager
          base_api_url terminate_url uuids).1
        = pre.flatMap (fun v => (BaseTaskInstanceManager.terminate
            session_post parse manager base_api_url terminate_url v).1)
          ++ (BaseTaskInstanceManager.terminate session_post parse manager
            base_api_url terminate_url u).1 ∧
      (BaseTaskInstanceManager.terminate_many session_post parse manager
        base_api_url terminate_url uuids).2 = .error e) := by
  refine ⟨?_, ?_, ?_, ?_⟩
  · intro h
    exact pySeqMap_all_ok _ uuids h
  · intro pre u post e heq hpre hu
    subst heq
    exact pySeqMap_first_error _ pre u post e hpre hu
  · intro h
    exact pySeqMap_all_ok _ uuids h
  · intro pre u post e heq hpre hu
    subst heq
    exact pySeqMap_first_error _ pre u post e hpre hu

/-- A concrete task-instance response body used by witnesses. -/
def sampleWire : TaskInstanceWire where
  uuid := "u"
  name := ""
  state := "created"
  user := "me"
  task_queue := 1
  task_type := 2
  datetime_created := "2018-01-01"
  datetime_finished := none
  arguments := []

/-- A server stub for the clone witness: the clone endpoint for `u2` reports
status 500, every other request reports 201. -/
def clonePostStub : String → HttpResponse TaskInstanceWire := fun url =>
  if url = "https://a/ti/u2/clone/" then ⟨"err", 500, sampleWire⟩
  else ⟨"", 201, sampleWire⟩

/-- An always-succeeding datetime parser stub for witnesses. -/
def wParse : String → Except String Nat := fun _ => .ok 0

/-- C6 witness: cloning `[u1, u2, u3]` where the second clone fails issues
exactly the first two clone requests in order and propagates the error, the
first request staying issued and the third never attempted. -/
theorem clone_many_terminate_many_sequential_witness :
    (["u1", "u2", "u3"] = ["u1"] ++ "u2" :: ["u3"]) ∧
    (BaseTaskInstanceManager.clone_many clonePostStub wParse ()
        "https://a/" "ti/{id}/clone/" ["u1", "u2", "u3"]).1
      = ["https://a/ti/u1/clone/", "https://a/ti/u2/clone/"] ∧
    (BaseTaskInstanceManager.clone_many clonePostStub wParse ()
        "https://a/" "ti/{id}/clone/" ["u1", "u2", "u3"]).2
      = .error (.badHttpRequestError
        ("Request to https://a/ti/u2/clone/ failed with status 500:\n"
          ++ "The reponse from the request was as follows:\n\nerr")) := by
  have h := (clone_many_terminate_many_sequential clonePostStub wParse ()
    "https://a/" "ti/{id}/clone/" "ti/{id}/terminate/"
    ["u1", "u2", "u3"]).2.1 ["u1"] "u2" ["u3"]
    (.badHttpRequestError
      ("Request to https://a/ti/u2/clone/ failed with status 500:\n"
        ++ "The reponse from the request was as follows:\n\nerr"))
    rfl
    (by
      intro v hv
      simp only [List.mem_singleton] at hv
      subst hv
      exact ⟨_, rfl⟩)
    rfl
  refine ⟨rfl, ?_, h.2⟩
  rw [h.1]
  rfl

/-! ### Task-type create (models/base_task_type.py,
models/executable_task_type.py) -/

/-- A value in form-encoded POST data: strings (including JSON-encoded
containers), booleans, integers, or Python `None`. -/
inductive FormVal : Type
  | s (v : String)
  | b (v : Bool)
  | i (v : Int)
  | none_
deriving DecidableEq

/-- JSON string escaping (backslash and double quote), as `json.dumps`
applies to each string value. -/
def jsonEscape (s : String) : String :=
  ⟨s.data.flatMap (fun c => if c = '\\' ∨ c = '"' then ['\\', c] else [c])⟩

/-- `json.dumps` of a string. -/
def json_dumps_str (s : String) : String :=
  "\"" ++ jsonEscape s ++ "\""

/-- `json.dumps` of a list of strings (default separators, so `[]` when
empty). -/
def json_dumps_str_list (xs : List String) : String :=
  "[" ++ String.intercalate ", " (xs.map json_dumps_str) ++ "]"

/-- `json.dumps` of a dict with string keys and values (default separators,
so an empty-braces string when empty). -/
def json_dumps_str_dict (d : PyDict String) : String :=
  "\x7b" ++ String.intercalate ", "
    (d.map (fun p => json_dumps_str p.1 ++ ": " ++ json_dumps_str p.2))
  ++ "\x7d"

/-- Outcome of a create call: the URL posted to, the form data posted, and
the returned model or raised exception. -/
structure CreateOutcome (mu : Type) where
  request_url : String
  data_to_post : PyDict FormVal
  result : Except PyError mu

/-- Embeds `BaseTaskTypeManager.create`: default the optional container
fields to empty containers, JSON-encode the list/dict fields, merge any
subclass extra data, POST the form data to the list URL expecting 201, and
convert the response body. -/
def BaseTaskTypeManager.create {alpha mu : Type}
    (session_post : String → PyDict FormVal → HttpResponse alpha)
    (toModel : alpha → Except PyError mu)
    (base_api_url list_url : String)
    (name command_to_run : String)
    (description : String := "")
    (environment_variables : Option (List String) := none)
    (required_arguments : Option (List String) := none)
    (required_arguments_default_values : Option (PyDict String) := none)
    (extra_data_to_post : Option (PyDict FormVal) := none) :
    CreateOutcome mu :=
  let environment_variables := match environment_variables with
    | none => []
    | some v => v
  let required_arguments := match required_arguments with
    | none => []
    | some v => v
  let required_arguments_default_values :=
    match required_arguments_default_values with
    | none => []
    | some v => v
  let request_url := base_api_url ++ list_url
  let data_to_post : PyDict FormVal :=
    [("name", .s name),
     ("description", .s description),
     ("command_to_run", .s command_to_run),
     ("environment_variables", .s (json_dumps_str_list environment_variables)),
     ("required_arguments", .s (json_dumps_str_list required_arguments)),
     ("required_arguments_default_values",
       .s (json_dumps_str_dict required_arguments_default_values))]
  let data_to_post := match extra_data_to_post with
    | none => data_to_post
    | some e => dictUpdate data_to_post e
  let response := session_post request_url data_to_post
  { request_url := request_url
    data_to_post := data_to_post
    result := do
      _ ← ModelManager.validate_request_success response.text request_url
        response.status_code HTTP_201_CREATED
      toModel response.json }

def ExecutableTaskTypeManager.list_url : String := "executabletasktypes/"

/-- Embeds `ExecutableTaskTypeManager.create`: add `json_file_option` into
the extra data side-channel (Python `None` when not given), then delegate to
the base create. -/
def ExecutableTaskTypeManager.create {alpha mu : Type}
    (session_post : String → PyDict FormVal → HttpResponse alpha)
    (toModel : alpha → Except PyError mu)
    (base_api_url : String)
    (name command_to_run : String)
    (description : String := "")
    (environment_variables : Option (List String) := none)
    (required_arguments : Option (List String) := none)
    (required_arguments_default_values : Option (PyDict String) := none)
    (json_file_option : Option String := none)
    (extra_data_to_post : Option (PyDict FormVal) := none) :
    CreateOutcome mu :=
  let extra := match extra_data_to_post with
    | none => []
    | some e => e
  let extra := dictUpdate extra
    [("json_file_option", match json_file_option with
      | none => FormVal.none_
      | some s => FormVal.s s)]
  BaseTaskTypeManager.create session_post toModel base_api_url
    ExecutableTaskTypeManager.list_url name command_to_run description
    environment_variables required_arguments
    required_arguments_default_values (some extra)

/-- C8: when the caller omits `environment_variables`, `required_arguments`
or `required_arguments_default_values`, the posted form data carries them as
JSON-encoded empty containers (never absent or null), and `name` and
`command_to_run` are always included — for the base create and for the
executable-task-type create. -/
theorem create_posts_empty_containers_for_omitted_fields {alpha mu : Type}
    (session_post : String → PyDict FormVal → HttpResponse alpha)
    (toModel : alpha → Except PyError mu)
    (base_api_url list_url nm cmd : String) :
    (dictLookup (BaseTaskTypeManager.create session_post toModel base_api_url
        list_url nm cmd).data_to_post "environment_variables"
      = some (.s "[]")) ∧
    (dictLookup (BaseTaskTypeManager.create session_post toModel base_api_url
        list_url nm cmd).data_to_post "required_arguments"
      = some (.s "[]")) ∧
    (dictLookup (BaseTaskTypeManager.create session_post toModel base_api_url
        list_url nm cmd).data_to_post "required_arguments_default_values"
      = some (.s "\x7b\x7d")) ∧
    (dictLookup (ExecutableTaskTypeManager.create session_post toModel
        base_api_url nm cmd).data_to_post "environment_variables"
      = some (.s "[]")) ∧
    (dictLookup (ExecutableTaskTypeManager.create session_post toModel
        base_api_url nm cmd).data_to_post "required_arguments"
      = some (.s "[]")) ∧
    (dictLookup (ExecutableTaskTypeManager.create session_post toModel
        base_api_url nm cmd).data_to_post "required_arguments_default_values"
      = some (.s "\x7b\x7d")) ∧
    (∀ (description : String) (env req : Option (List String))
        (defaults : Option (PyDict String)),
      dictLookup (BaseTaskTypeManager.create session_post toModel
          base_api_url list_url nm cmd description env req
          defaults).data_to_post "name" = some (.s nm) ∧
      dictLookup (BaseTaskTypeManager.create session_post toModel
          base_api_url list_url nm cmd description env req
          defaults).data_to_post "command_to_run" = some (.s cmd)) ∧
    (∀ (description : String) (env req : Option (List String))
        (defaults : Option (PyDict String)) (jfo : Option String),
      dictLookup (ExecutableTaskTypeManager.create session_post toModel
          base_api_url nm cmd description env req defaults
          jfo).data_to_post "name" = some (.s nm) ∧
      dictLookup (ExecutableTaskTypeManager.create session_post toModel
          base_api_url nm cmd description env req defaults
          jfo).data_to_post "command_to_run" = some (.s cmd)) :=
  ⟨rfl, rfl, rfl, rfl, rfl, rfl,
    fun _ _ _ _ => ⟨rfl, rfl⟩,
    fun _ _ _ _ _ => ⟨rfl, rfl⟩⟩

/-! ### Model.sync (models/base_task_instance.py, models/task_queue.py) -/

/-- An object heap: model objects indexed by allocation order, so that
Python aliasing (several references to one object) can be expressed. -/
structure Heap (mu : Type) where
  objs : List mu

/-- Allocate a new object, returning the extended heap and the new
reference. -/
def Heap.alloc {mu : Type} (h : Heap mu) (a : mu) : Heap mu × Nat :=
  (⟨h.objs ++ [a]⟩, h.objs.length)

/-- Dereference: the object a reference points to, if valid. -/
def Heap.deref {mu : Type} (h : Heap mu) (r : Nat) : Option mu :=
  h.objs[r]?

/-- A manager `get` at the heap level: fetch-and-construct the model value
for an identifier (`get1` is the success-path result of the manager's get)
and allocate the freshly constructed object. -/
def managerGetAlloc {iota mu : Type} (get1 : iota → mu) (h : Heap mu)
    (key : iota) : Heap mu × Nat :=
  h.alloc (get1 key)

/-- Embeds `sync` (the bodies of `BaseTaskInstance.sync`, `TaskQueue.sync`
and `BaseTaskType.sync` are identical up to the identifier name):
`self = self.manager.get(uuid=self.uuid); return self` reads the object's
own identifier, performs the manager get (allocating the freshly constructed
model), rebinds the local name `self`, and returns the new reference; the
assignment writes a local variable, never the original object's fields. -/
def Model.sync {iota mu : Type} (get1 : iota → mu) (key : mu → iota)
    (h : Heap mu) (self : Nat) : Option (Heap mu × Nat) :=
  match h.deref self with
  | none => none
  | some m => some (managerGetAlloc get1 h (key m))

/-- C9: `m.sync()` returns the model produced by the manager's get at `m`'s
own identifier — a fresh object whose fields are exactly the fresh-get
result — while `m` itself, and every other existing object, is left
unchanged. -/
theorem sync_returns_fresh_get_without_mutation {iota mu : Type}
    (get1 : iota → mu) (key : mu → iota) (h : Heap mu) (self : Nat) (m : mu)
    (hm : h.deref self = some m) :
    ∃ h2 r2, Model.sync get1 key h self = some (h2, r2) ∧
      h2.deref r2 = some (get1 (key m)) ∧
      h2.deref self = some m ∧
      (∀ i, i < h.objs.length → h2.deref i = h.deref i) ∧
      r2 = h.objs.length := by
  have hframe : ∀ i, i < h.objs.length →
      (h.objs ++ [get1 (key m)])[i]? = h.objs[i]? := by
    intro i hi
    rw [List.getElem?_append]
    simp [hi]
  have hself : self < h.objs.length := by
    by_contra hge
    unfold Heap.deref at hm
    rw [List.getElem?_eq_none (by omega)] at hm
    exact absurd hm (by simp)
  refine ⟨⟨h.objs ++ [get1 (key m)]⟩, h.objs.length, ?_, ?_, ?_, ?_, rfl⟩
  · unfold Model.sync
    rw [hm]
    rfl
  · simp [Heap.deref]
  · show (h.objs ++ [get1 (key m)])[self]? = some m
    rw [hframe self hself]
    exact hm
  · intro i hi
    show (h.objs ++ [get1 (key m)])[i]? = h.objs[i]?
    exact hframe i hi

/-- C9 witness: a one-object heap; syncing the object at reference 0 returns
a fresh object holding the fresh-get value while the original is unchanged. -/
theorem sync_returns_fresh_get_without_mutation_witness :
    (Heap.deref ⟨[5]⟩ 0 = some 5) ∧
    (∃ h2 r2,
      Model.sync (fun n => n + 10) (fun (n : Nat) => n) ⟨[5]⟩ 0
        = some (h2, r2) ∧
      h2.deref r2 = some 15 ∧
      h2.deref 0 = some 5 ∧
      (∀ i, i < (Heap.mk [5]).objs.length → h2.deref i = Heap.deref ⟨[5]⟩ i) ∧
      r2 = (Heap.mk [5]).objs.length) :=
  ⟨rfl,
    sync_returns_fresh_get_without_mutation (fun n => n + 10)
      (fun (n : Nat) => n) ⟨[5]⟩ 0 5 rfl⟩
